import Mathlib

/-!
Verification development for the multi-agent disaster RAG system.

The Python source is shallowly embedded: text is `List Char` (Python `str`),
Python dictionaries with possibly absent keys are records of `Option` fields,
Python exceptions are `Except String`-style error values, and the numeric
scores carried through the evaluator (Python floats compared against the
constants 0.6 / 0.7 / 0.75) are modelled over `Rat`, which is exact for all
values used by the claims under study.
-/

set_option maxRecDepth 10000

/-- Text, modelling a Python `str` as its character sequence. -/
abbrev Str := List Char

/-- ASCII lower-casing of one character, modelling Python `str.lower` per char. -/
def lowerChar (c : Char) : Char :=
  if 'A' ≤ c && c ≤ 'Z' then Char.ofNat (c.toNat + 32) else c

/-- Python `s.lower()` (ASCII fragment, which covers all keyword tables). -/
def lower (s : Str) : Str := s.map lowerChar

/-- Python whitespace recognised by `str.strip()`. -/
def isPySpace (c : Char) : Bool :=
  c = ' ' || c = '\t' || c = '\n' || c = '\r' || c = '\x0b' || c = '\x0c'

/-- Python `s.strip()`: drop whitespace from both ends. -/
def pyStrip (s : Str) : Str :=
  ((s.dropWhile isPySpace).reverse.dropWhile isPySpace).reverse

/-- Python substring test `needle in hay`. -/
def substrIn (needle : Str) : Str → Bool
  | [] => needle.isEmpty
  | c :: rest => needle.isPrefixOf (c :: rest) || substrIn needle rest

/-- `substrIn` decides list-infix (Python `in` on strings). -/
theorem substrIn_iff (needle hay : Str) :
    substrIn needle hay = true ↔ needle <:+: hay := by
  induction hay with
  | nil =>
      simp [substrIn, List.isEmpty_iff, List.infix_nil]
  | cons c rest ih =>
      simp [substrIn, List.isPrefixOf_iff_prefix, ih, List.infix_cons_iff]

namespace RoutingPolicy

/-- `self.calculator_keywords` from `routing_policy.py`. -/
def calculator_keywords : List Str :=
  ["calculate".toList, "compute".toList, "math".toList, "percentage".toList,
   "addition".toList, "subtraction".toList, "multiply".toList, "divide".toList]

/-- `self.calculator_symbols` from `routing_policy.py`. -/
def calculator_symbols : List Str :=
  ["+".toList, "-".toList, "*".toList, "/".toList, "=".toList, "%".toList]

/-- `self.web_search_keywords` from `routing_policy.py`. -/
def web_search_keywords : List Str :=
  ["search".toList, "google".toList, "find".toList, "look up".toList,
   "latest".toList, "news".toList, "current".toList, "today".toList,
   "what is happening".toList, "recent".toList, "update".toList]

/-- `self.weather_keywords` from `routing_policy.py`. -/
def weather_keywords : List Str :=
  ["weather".toList, "temperature".toList, "rain".toList, "rainfall".toList,
   "wind".toList, "humidity".toList, "cloud".toList, "climate".toList,
   "forecast".toList, "imd".toList, "heat".toList, "cold".toList, "sunny".toList,
   "visibility".toList, "today".toList, "tomorrow".toList, "live".toList,
   "coastal".toList, "sea".toList, "fishermen".toList]

/-- `self.rag_keywords` from `routing_policy.py`. -/
def rag_keywords : List Str :=
  ["history".toList, "past".toList, "historical".toList, "report".toList,
   "paper".toList, "document".toList, "study".toList, "research".toList,
   "previous cyclone".toList, "previous disaster".toList,
   "fani".toList, "phailin".toList, "impact".toList, "damage assessment".toList]

/-- `self.historical_intents` from `routing_policy.py`. -/
def historical_intents : List Str :=
  ["was".toList, "were".toList, "happened".toList, "occurred".toList,
   "previous".toList, "last year".toList, "ago".toList]

/-- `RoutingPolicy._contains`: any keyword occurs in the query. -/
def contains (query : Str) (keywords : List Str) : Bool :=
  keywords.any (fun kw => substrIn kw query)

/-- `RoutingPolicy._has_math_symbols` (applied to the raw query in `route`). -/
def has_math_symbols (query : Str) : Bool :=
  calculator_symbols.any (fun sym => substrIn sym query)

/-- The category list the LLM fallback validates against
(`valid_routes = ["weather", "disaster", "rag", "general"]`). -/
def valid_routes : List Str :=
  ["weather".toList, "disaster".toList, "rag".toList, "general".toList]

/-- Outcome of one call to the optional classifier capability:
`Except.error` models the call raising, `Except.ok` its returned content. -/
abbrev ClassifierOutcome := Except Str Str

/-- `RoutingPolicy.llm_fallback`: classify via the LLM client, validating the
label against `valid_routes`; any exception resolves to `"general"`. -/
def llm_fallback (outcome : ClassifierOutcome) : Str :=
  match outcome with
  | Except.error _ => "general".toList
  | Except.ok content =>
      let label := lower (pyStrip content)
      if label ∈ valid_routes then label else "general".toList

/-- `RoutingPolicy.route`: tiered keyword routing with optional LLM fallback.
`client = none` models `RoutingPolicy(client=None)` (as constructed in
`workflow.py`); `client = some outcome` models a configured classifier whose
single call yields `outcome`. -/
def route (client : Option ClassifierOutcome) (query : Str) : Str :=
  let q := pyStrip (lower query)
  if has_math_symbols query || contains q calculator_keywords then
    "calculator".toList
  else if contains q web_search_keywords then
    "web_search".toList
  else if contains q rag_keywords || historical_intents.any (fun w => substrIn w q) then
    "rag".toList
  else if contains q weather_keywords then
    "weather".toList
  else
    match client with
    | some outcome => llm_fallback outcome
    | none => "general".toList

end RoutingPolicy

section RoutingTheorems

open RoutingPolicy

/-- The five route labels named by the specification. -/
def spec_route_labels : List Str :=
  ["calculator".toList, "web_search".toList, "weather".toList,
   "rag".toList, "general".toList]

/-- The six labels `RoutingPolicy.route` can actually return: the five above
plus `"disaster"`, which the LLM fallback accepts as valid. -/
def actual_route_labels : List Str :=
  ["calculator".toList, "web_search".toList, "weather".toList,
   "rag".toList, "general".toList, "disaster".toList]

/-- Any outcome of `llm_fallback` lies in `valid_routes`. -/
theorem llm_fallback_mem_valid (outcome : ClassifierOutcome) :
    llm_fallback outcome ∈ valid_routes := by
  cases outcome with
  | error e => simp [llm_fallback, valid_routes]
  | ok content =>
      simp only [llm_fallback]
      split
      · assumption
      · simp [valid_routes]

/-- C9 (confirmed): every query containing at least one arithmetic symbol from
{+, -, *, /, =, %} routes to `calculator`, whatever other keywords occur and
whatever classifier is configured: the symbol check is the first test in
`RoutingPolicy.route` and short-circuits every later tier. -/
theorem route_math_symbol_is_calculator (client : Option ClassifierOutcome)
    (query : Str) (h : ∃ s ∈ calculator_symbols, s <:+: query) :
    route client query = "calculator".toList := by
  have hsym : has_math_symbols query = true := by
    rcases h with ⟨s, hs, hinf⟩
    unfold has_math_symbols
    rw [List.any_eq_true]
    exact ⟨s, hs, (substrIn_iff s query).mpr hinf⟩
  simp [route, hsym]

/-- Witness for C9 at the concrete query "2+2". -/
theorem route_math_symbol_is_calculator_witness :
    (∃ s ∈ RoutingPolicy.calculator_symbols, s <:+: "2+2".toList) ∧
      RoutingPolicy.route none "2+2".toList = "calculator".toList :=
  ⟨by decide, route_math_symbol_is_calculator none "2+2".toList (by decide)⟩

/-- C5 counterexample: with a classifier configured that answers `"disaster"`,
`RoutingPolicy.route` on the keyword-free query "hello" returns `"disaster"`,
a label outside the specification's closed five-label set. -/
theorem route_disaster_escapes_spec_set :
    RoutingPolicy.route (some (Except.ok "disaster".toList)) "hello".toList
        = "disaster".toList ∧
      "disaster".toList ∉ spec_route_labels := by
  constructor
  · decide
  · decide

/-- C5 (amended): `RoutingPolicy.route` always returns one of the six labels
{calculator, web_search, weather, rag, general, disaster} — the classifier
fallback also accepts `"disaster"` — and any classifier output whose
stripped, lower-cased form is outside {weather, disaster, rag, general}
resolves to `general`. -/
theorem route_label_closed (client : Option ClassifierOutcome) (query : Str)
    (out : Str) :
    route client query ∈ actual_route_labels ∧
      (lower (pyStrip out) ∉ valid_routes →
        llm_fallback (Except.ok out) = "general".toList) := by
  constructor
  · have hsub : ∀ x, x ∈ valid_routes → x ∈ actual_route_labels := by
      intro x hx
      simp only [valid_routes, List.mem_cons, List.not_mem_nil, or_false] at hx
      rcases hx with h | h | h | h <;> simp [actual_route_labels, h]
    cases client with
    | none =>
        simp only [route]
        repeat' split
        · decide
        · decide
        · decide
        · decide
        · decide
    | some outcome =>
        simp only [route]
        repeat' split
        · decide
        · decide
        · decide
        · decide
        · exact hsub _ (llm_fallback_mem_valid outcome)
  · intro hnot
    simp only [llm_fallback]
    split
    · exact absurd (by assumption) hnot
    · rfl

/-- Witness for C5's amended theorem at concrete inputs: query "hello" with no
classifier, and the raw classifier output "banana". -/
theorem route_label_closed_witness :
    RoutingPolicy.route none "hello".toList ∈ actual_route_labels ∧
      RoutingPolicy.llm_fallback (Except.ok "banana".toList) = "general".toList :=
  ⟨(route_label_closed none "hello".toList "banana".toList).1,
   (route_label_closed none "hello".toList "banana".toList).2 (by decide)⟩

end RoutingTheorems

/-- One conversation entry, modelling the dict
`{"user": ..., "assistant": ...}` stored in `ShortTermMemory`. -/
structure Interaction where
  user : Str
  assistant : Str
deriving DecidableEq, Repr

namespace ShortTermMemory

/-- `ShortTermMemory.add` from `memory/short_term.py`: append the interaction,
then `pop(0)` when the buffer holds more than 10 entries. -/
def add (buffer : List Interaction) (interaction : Interaction) : List Interaction :=
  let buffer := buffer ++ [interaction]
  if buffer.length > 10 then buffer.tail else buffer

/-- Folding `add` over a sequence of turns, starting from a given buffer. -/
def addAll (buffer : List Interaction) (turns : List Interaction) : List Interaction :=
  turns.foldl add buffer

/-- Invariant behind C7: from any buffer of at most 10 entries, a run of adds
keeps exactly the most recent entries, dropping from the front (FIFO). -/
theorem addAll_eq_drop (turns : List Interaction) :
    ∀ buffer : List Interaction, buffer.length ≤ 10 →
      addAll buffer turns =
        (buffer ++ turns).drop (buffer.length + turns.length - 10) := by
  induction turns with
  | nil =>
      intro buffer hle
      simp [addAll, Nat.sub_eq_zero_of_le hle]
  | cons i rest ih =>
      intro buffer hle
      have hstep : addAll buffer (i :: rest) = addAll (add buffer i) rest := rfl
      have hlen1 : (buffer ++ [i]).length = buffer.length + 1 := by simp
      by_cases hfull : buffer.length = 10
      · -- buffer is full: add evicts the oldest entry
        have hne : buffer ≠ [] := by
          intro h
          rw [h] at hfull
          simp at hfull
        obtain ⟨a, buffer', rfl⟩ := List.exists_cons_of_ne_nil hne
        have hb' : buffer'.length = 9 := by
          simp only [List.length_cons] at hfull
          omega
        have hadd : add (a :: buffer') i = buffer' ++ [i] := by
          simp only [add]
          rw [if_pos]
          · rfl
          · have h1 : (a :: buffer' ++ [i]).length = buffer'.length + 2 := by simp
            rw [h1, hb']
            omega
        have hap : (buffer' ++ [i]).length = 10 := by simp [hb']
        have hlen' : (buffer' ++ [i]).length ≤ 10 := le_of_eq hap
        rw [hstep, hadd, ih _ hlen']
        have harr : buffer' ++ [i] ++ rest = buffer' ++ i :: rest := by simp
        have hL : (buffer' ++ [i]).length + rest.length - 10 = rest.length := by
          rw [hap]
          omega
        have hR : (a :: buffer').length + (i :: rest).length - 10 = rest.length + 1 := by
          simp only [List.length_cons, hb']
          omega
        rw [harr, hL, hR, List.cons_append, List.drop_succ_cons]
      · -- buffer not yet full: add plainly appends
        have hlt : buffer.length < 10 := lt_of_le_of_ne hle hfull
        have hadd : add buffer i = buffer ++ [i] := by
          simp only [add]
          rw [if_neg]
          rw [hlen1]
          omega
        have hlen' : (buffer ++ [i]).length ≤ 10 := by
          rw [hlen1]
          omega
        rw [hstep, hadd, ih _ hlen']
        have harr : buffer ++ [i] ++ rest = buffer ++ i :: rest := by simp
        have hL : (buffer ++ [i]).length + rest.length - 10
            = buffer.length + (i :: rest).length - 10 := by
          rw [hlen1, List.length_cons]
          omega
        rw [harr, hL]

end ShortTermMemory

/-- C7 (confirmed): starting from an empty session history, any sequence of
appended turns leaves exactly the most recent (at most 10) entries, in append
order, the oldest evicted first; in particular after 11 appends the history is
the last 10 turns, with the first-appended entry dropped. -/
theorem short_term_memory_fifo_bound (turns : List Interaction) :
    ShortTermMemory.addAll [] turns = turns.drop (turns.length - 10) ∧
      (ShortTermMemory.addAll [] turns).length ≤ 10 := by
  have h := ShortTermMemory.addAll_eq_drop turns [] (by simp)
  simp only [List.nil_append, List.length_nil, Nat.zero_add] at h
  refine ⟨h, ?_⟩
  rw [h, List.length_drop]
  omega

/-- A retrieved document as consumed by the evaluator's RAG augmentation
(`d.get("content", "")` on each dict): only the content field is read there. -/
structure AugDoc where
  content : Str
deriving DecidableEq, Repr

/-- The `plan` dict read by `EvaluatorAgent.__call__` (both keys may be
absent; `state` may lack the whole dict, modelled by `Option PlanRec`). -/
structure PlanRec where
  confidence : Option Rat
  next_agent : Option Str
deriving DecidableEq, Repr

/-- The slice of the LangGraph state read by `EvaluatorAgent.__call__`. -/
structure EvalInput where
  query : Str
  plan : Option PlanRec
  selected_agent : Option Str
  agent_response : Str
deriving DecidableEq, Repr

/-- The JSON value found under the `"score"` key of the evaluation LLM's
parsed output: a number, or something `float()` cannot convert. -/
inductive JScore where
  | num (q : Rat)
  | nonNumeric (render : Str)
deriving DecidableEq, Repr

/-- Outcome of the scoring LLM call in `EvaluatorAgent.__call__`:
the call raised (`callError`); the content was not JSON at all (`notJson`,
`json.loads` raised); the content was valid JSON but not a JSON object
(`jsonNonObject`, e.g. "[1, 2]", "0.9" or "null" — `json.loads` succeeds and
returns a non-dict, `render` is the Python rendering of its type, such as
"'list'"); or it parsed to a dict with optional `"score"` plus
`"issues"`/`"suggestion"` defaults (`jsonOut`). -/
inductive ScoreLLMOut where
  | callError (e : Str)
  | notJson
  | jsonNonObject (render : Str)
  | jsonOut (score : Option JScore) (issues : List Str) (suggestion : Str)
deriving DecidableEq, Repr

/-- The evaluator's tool dict: `some f` means the tool name is registered and
`f` gives the outcome of its `.execute(...)` call (`Except.error` = raised). -/
structure EvalTools where
  ragExec : Option (Str → Nat → Except Str (List AugDoc))
  webExec : Option (Str → Except Str Str)

/-- The `evaluation` record assembled by `EvaluatorAgent.__call__`; `Option`
fields model dict keys that are only conditionally written. -/
structure EvalResult where
  approved : Bool
  score : Rat
  issues : List Str
  suggestion : Str
  planner_agent : Str
  planner_confidence : Rat
  planner_note : Str
  improved_answer : Option Str
  augmentation : Option Str
  approved_after_improve : Option Bool

/-- `"\n\n".join(...)` over document contents. -/
def joinBlankLine : List Str → Str
  | [] => []
  | [s] => s
  | s :: rest => s ++ "\n\n".toList ++ joinBlankLine rest

namespace EvaluatorAgent

/-- The RAG improvement prompt built in `EvaluatorAgent.__call__`. -/
def ragImprovePrompt (context original : Str) : Str :=
  "Rewrite and improve the previous answer using the context below. Be concise and cite filenames/pages if available.\n\nContext:\n".toList
    ++ context ++ "\n\nOriginal answer:\n".toList ++ original

/-- The web-search improvement prompt built in `EvaluatorAgent.__call__`. -/
def webImprovePrompt (snippets original : Str) : Str :=
  "Using the search snippets below, improve the original answer. If snippets contradict the original answer, prefer factual snippets and correct the response.\n\nSnippets:\n".toList
    ++ snippets ++ "\n\nOriginal answer:\n".toList ++ original

/-- `EvaluatorAgent.__call__` from `evaluator_agent.py`.

`scoreLLM` is the outcome of the scoring `llm.invoke`, `improveLLM` the
generation capability used by the augmentation rewrite, `tools` the agent's
tool dict and `autoImprove` the `auto_improve_confidence` constructor value.
The returned `Except` is `error` exactly when the Python method raises; the
line `score = float(eval_json.get("score", 0.0))` sits outside both
try/except blocks and raises in two cases: `eval_json` is valid JSON but not
a dict (`.get` does not exist — AttributeError), or the `"score"` value is
not convertible by `float` (ValueError). -/
def call (scoreLLM : ScoreLLMOut) (improveLLM : Str → Except Str Str)
    (tools : EvalTools) (autoImprove : Rat) (inp : EvalInput) :
    Except Str EvalResult :=
  let planner_conf : Rat := ((inp.plan.bind (·.confidence)).getD 0)
  let planner_agent : Str := ((inp.plan.bind (·.next_agent)).getD "general".toList)
  let planner_ok : Bool := decide (planner_conf ≥ mkRat 6 10)
  let planner_note : Str :=
    if planner_ok then "approved".toList else "low_confidence".toList
  let parsed : Except Str (Rat × List Str × Str) :=
    match scoreLLM with
    | ScoreLLMOut.callError e =>
        Except.ok (mkRat 1 2,
          ["Evaluator LLM error: ".toList ++ e], "Evaluator LLM error".toList)
    | ScoreLLMOut.notJson =>
        Except.ok (mkRat 7 10, [], "No strict JSON from LLM; default 0.7".toList)
    | ScoreLLMOut.jsonNonObject render =>
        Except.error ("AttributeError: ".toList ++ render
          ++ " object has no attribute 'get'".toList)
    | ScoreLLMOut.jsonOut none issues suggestion =>
        Except.ok (0, issues, suggestion)
    | ScoreLLMOut.jsonOut (some (JScore.num q)) issues suggestion =>
        Except.ok (q, issues, suggestion)
    | ScoreLLMOut.jsonOut (some (JScore.nonNumeric r)) _ _ =>
        Except.error ("ValueError: could not convert string to float: ".toList ++ r)
  match parsed with
  | Except.error e => Except.error e
  | Except.ok (score, issues, suggestion) =>
      let approved : Bool := decide (score ≥ mkRat 7 10) && planner_ok
      let base : EvalResult :=
        { approved := approved, score := score, issues := issues,
          suggestion := suggestion, planner_agent := planner_agent,
          planner_confidence := planner_conf, planner_note := planner_note,
          improved_answer := none, augmentation := none,
          approved_after_improve := none }
      if (!approved || decide (score < autoImprove))
          && (tools.webExec.isSome || tools.ragExec.isSome) then
        -- one augmentation round: (improved_text, augmentation_note, issues)
        let attempt : Option Str × Option Str × List Str :=
          match (if planner_agent = "rag".toList then tools.ragExec else none) with
          | some ragf =>
              match ragf inp.query 5 with
              | Except.ok docs =>
                  let context := joinBlankLine (docs.map (·.content))
                  match improveLLM (ragImprovePrompt context inp.agent_response) with
                  | Except.ok t => (some t, some "RAG augmentation used".toList, issues)
                  | Except.error e =>
                      (none, some "RAG augmentation used".toList,
                       issues ++ ["RAG augmentation failed: ".toList ++ e])
              | Except.error e =>
                  (none, none, issues ++ ["RAG augmentation failed: ".toList ++ e])
          | none =>
              match tools.webExec with
              | some webf =>
                  match webf inp.query with
                  | Except.ok out =>
                      match improveLLM (webImprovePrompt out inp.agent_response) with
                      | Except.ok t =>
                          (some t, some "WebSearch augmentation used".toList, issues)
                      | Except.error e =>
                          (none, some "WebSearch augmentation used".toList,
                           issues ++ ["WebSearch augmentation failed: ".toList ++ e])
                  | Except.error e =>
                      (none, none, issues ++ ["WebSearch augmentation failed: ".toList ++ e])
              | none => (none, none, issues)
        match attempt with
        | (some t, note, issues') =>
            if t ≠ [] then
              Except.ok
                { base with
                  issues := issues'
                  improved_answer := some t
                  augmentation := note
                  approved_after_improve := some true }
            else
              Except.ok
                { base with
                  issues := issues'
                  approved_after_improve := some false }
        | (none, _, issues') =>
            Except.ok
              { base with
                issues := issues'
                approved_after_improve := some false }
      else
        Except.ok base

end EvaluatorAgent

section EvaluatorTheorems

/-- A tool dict with neither augmentation tool registered. -/
def evalToolsNone : EvalTools := { ragExec := none, webExec := none }

/-- A concrete evaluator input with no `plan` in the state, exactly the shape
every turn of the deployed graph produces (the `AppState` of `workflow.py`
has no `plan` key), here for a turn routed to `rag` by keyword match. -/
def evalInputNoPlan : EvalInput :=
  { query := "what happened in 1999".toList
    plan := none
    selected_agent := some "rag".toList
    agent_response := "ans".toList }

/-- A generation capability whose augmentation call always raises (never
reached in the runs below). -/
def improveLLMUnused : Str → Except Str Str := fun _ => Except.error "unused".toList

/-- Scoring outcome: strict JSON with score 0.9. -/
def scoreOut09 : ScoreLLMOut :=
  ScoreLLMOut.jsonOut (some (JScore.num (mkRat 9 10))) [] "ok".toList

/-- The evaluation record produced from `evalInputNoPlan` with score 0.9 and
no tools configured. -/
def evalResult09 : EvalResult :=
  { approved := false
    score := mkRat 9 10
    issues := []
    suggestion := "ok".toList
    planner_agent := "general".toList
    planner_confidence := 0
    planner_note := "low_confidence".toList
    improved_answer := none
    augmentation := none
    approved_after_improve := none }

/-- C4 counterexample: a rule-based-routed turn (no `plan` in state) scored
0.9 by the LLM yields `approved = false`, although `score ≥ 0.7` holds:
`plan.get("confidence", 0.0)` defaults to `0.0 < 0.6`, so `planner_ok` is
false and the conjunction can never be true. -/
theorem evaluator_rule_based_not_approved :
    EvaluatorAgent.call scoreOut09 improveLLMUnused evalToolsNone (mkRat 3 4)
        evalInputNoPlan = Except.ok evalResult09 ∧
      evalResult09.approved = false ∧ evalResult09.score ≥ mkRat 7 10 := by
  refine ⟨by rfl, by rfl, by decide⟩

/-- C4 (amended): for every turn whose state carries no `plan` entry — which
is every turn of the deployed graph, in particular every rule-based-routed
turn — the planner confidence defaults to 0.0, below the 0.6 trust threshold,
so the evaluator's `approved` output is `false` regardless of the score. -/
theorem evaluator_no_plan_never_approved (scoreLLM : ScoreLLMOut)
    (improveLLM : Str → Except Str Str) (tools : EvalTools) (autoImprove : Rat)
    (inp : EvalInput) (hplan : inp.plan = none) (r : EvalResult)
    (h : EvaluatorAgent.call scoreLLM improveLLM tools autoImprove inp
          = Except.ok r) :
    r.approved = false := by
  have h06 : (decide ((0 : Rat) ≥ mkRat 6 10)) = false := by rfl
  simp only [EvaluatorAgent.call, hplan, Option.none_bind, Option.getD_none,
    h06, Bool.and_false] at h
  repeat' split at h
  all_goals cases h
  all_goals rfl

/-- Witness for C4's amended theorem at the concrete run of
`evaluator_rule_based_not_approved`. -/
theorem evaluator_no_plan_never_approved_witness :
    evalResult09.approved = false :=
  evaluator_no_plan_never_approved scoreOut09 improveLLMUnused evalToolsNone
    (mkRat 3 4) evalInputNoPlan rfl evalResult09 (by rfl)

/-- A retrieval tool whose `.execute` succeeds with one document. -/
def ragExecOk : Str → Nat → Except Str (List AugDoc) :=
  fun _ _ => Except.ok [{ content := "cyclone report".toList }]

/-- A web-search tool whose `.execute` succeeds with one snippet block. -/
def webExecOk : Str → Except Str Str :=
  fun _ => Except.ok "snippet".toList

/-- Tool dict with both augmentation tools configured and succeeding. -/
def evalToolsBoth : EvalTools := { ragExec := some ragExecOk, webExec := some webExecOk }

/-- A generation capability answering every improvement prompt with "better". -/
def improveLLMBetter : Str → Except Str Str := fun _ => Except.ok "better".toList

/-- C6 counterexample: a turn routed to `rag` (selected_agent = "rag"), with a
retrieval tool configured and succeeding, still augments through web search:
the branch condition reads `plan.get("next_agent", "general")`, which is
`"general"` because the deployed state has no `plan`, never the route. -/
theorem evaluator_rag_route_web_augmented :
    evalInputNoPlan.selected_agent = some "rag".toList ∧
      evalToolsBoth.ragExec.isSome = true ∧
      (EvaluatorAgent.call ScoreLLMOut.notJson improveLLMBetter evalToolsBoth
          (mkRat 3 4) evalInputNoPlan).map
            (fun r => (r.augmentation, r.improved_answer))
        = Except.ok (some "WebSearch augmentation used".toList,
            some "better".toList) := by
  refine ⟨rfl, rfl, by rfl⟩

/-- C6 (amended): augmentation preference is keyed on the planner field
`plan["next_agent"]`, not on the actual route. When the state carries no
`plan` (as on every turn of the deployed graph) and a web-search tool is
configured, the evaluator behaves identically whether or not a retrieval
tool is configured — retrieval augmentation is never used, even for turns
whose route was `rag`. -/
theorem evaluator_no_plan_ignores_rag_tool (scoreLLM : ScoreLLMOut)
    (improveLLM : Str → Except Str Str)
    (ragf : Str → Nat → Except Str (List AugDoc)) (webf : Str → Except Str Str)
    (autoImprove : Rat) (inp : EvalInput) (hplan : inp.plan = none) :
    EvaluatorAgent.call scoreLLM improveLLM
        { ragExec := some ragf, webExec := some webf } autoImprove inp
      = EvaluatorAgent.call scoreLLM improveLLM
          { ragExec := none, webExec := some webf } autoImprove inp := by
  have hga : ("general".toList = "rag".toList) = False := by
    simp
  simp only [EvaluatorAgent.call, hplan, Option.none_bind, Option.getD_none,
    hga, if_false, Option.isSome_some, Option.isSome_none, Bool.or_true,
    Bool.or_false, Bool.and_true]

/-- Witness for C6's amended theorem at the concrete input of the
counterexample run. -/
theorem evaluator_no_plan_ignores_rag_tool_witness :
    EvaluatorAgent.call ScoreLLMOut.notJson improveLLMBetter
        { ragExec := some ragExecOk, webExec := some webExecOk }
        (mkRat 3 4) evalInputNoPlan
      = EvaluatorAgent.call ScoreLLMOut.notJson improveLLMBetter
          { ragExec := none, webExec := some webExecOk }
          (mkRat 3 4) evalInputNoPlan :=
  evaluator_no_plan_ignores_rag_tool ScoreLLMOut.notJson improveLLMBetter
    ragExecOk webExecOk (mkRat 3 4) evalInputNoPlan rfl

end EvaluatorTheorems

/-- `sep.join(parts)`. -/
def joinSep (sep : Str) : List Str → Str
  | [] => []
  | [s] => s
  | s :: rest => s ++ sep ++ joinSep sep rest

/-- Three zero-padded decimal digits. -/
def pad3 (n : Nat) : Str :=
  let d := Nat.toDigits 10 n
  List.replicate (3 - d.length) '0' ++ d

/-- `f"{score:.3f}"`: fixed three-decimal rendering over the exact rational,
computed on numerator/denominator (round to nearest, ties up; Python rounds
the underlying double to nearest-even, which agrees at every non-tie value). -/
def fmt3 (q : Rat) : Str :=
  let m : Int := (2 * q.num * 1000 + (q.den : Int)) / (2 * (q.den : Int))
  let sign : Str := if m < 0 then "-".toList else []
  let n : Nat := m.natAbs
  sign ++ Nat.toDigits 10 (n / 1000) ++ ".".toList ++ pad3 (n % 1000)

/-- One retrieved document as consumed by `RAGTool._format_documents`: the
dict case with its `.get` fallbacks already resolved (content via
`content`/`text`, source via `file`/`source` defaulting "Unknown", page
defaulting "N/A", score defaulting 0.0); the non-dict `str(doc)` branch is
not modelled since the retriever returns dicts. -/
structure RetrievedDoc where
  content : Str
  source : Str
  page : Str
  score : Rat
deriving DecidableEq

namespace RAGTool

/-- The per-document block built inside `RAGTool._format_documents`
(1-based index `i`). -/
def formatDoc (i : Nat) (doc : RetrievedDoc) : Str :=
  "\n--- Document ".toList ++ Nat.toDigits 10 i ++ " ---\n".toList
    ++ "Source: ".toList ++ doc.source ++ " (Page: ".toList ++ doc.page
    ++ ")\n".toList
    ++ "Relevance: ".toList ++ fmt3 doc.score ++ "\n".toList
    ++ List.replicate 60 '-' ++ "\n".toList
    ++ doc.content ++ "\n".toList

/-- `RAGTool._format_documents`: banner lines plus one block per document,
joined with newlines. -/
def format_documents (docs : List RetrievedDoc) : Str :=
  if docs = [] then "No documents retrieved".toList
  else
    joinSep "\n".toList
      (List.replicate 60 '=' :: "RETRIEVED DOCUMENTS".toList
        :: List.replicate 60 '=' ::
        docs.enum.map (fun p => formatDoc (p.1 + 1) p.2))

/-- `RAGTool.retrieve`: guard the empty query, call the retriever
(`Except.error` models `get_top_k` raising), and format. -/
def retrieve (retrieverOutcome : Except Str (List RetrievedDoc))
    (query : Str) : Str :=
  if query = [] then "Error: No query provided".toList
  else
    match retrieverOutcome with
    | Except.error e => "RAG retrieval error: ".toList ++ e
    | Except.ok results =>
        if results = [] then "No relevant documents found".toList
        else format_documents results

end RAGTool

/-- Non-overlapping substring count with explicit fuel (structural recursion;
called with `fuel = hay.length`, which the scan never exhausts). -/
def countOccAux (needle : Str) : Nat → Str → Nat
  | 0, _ => 0
  | _, [] => 0
  | fuel + 1, c :: rest =>
      if needle.isPrefixOf (c :: rest) then
        1 + countOccAux needle fuel ((c :: rest).drop needle.length)
      else
        countOccAux needle fuel rest

/-- Python `hay.count(needle)`: count non-overlapping occurrences scanning
left to right (`"".count` inside a string of length n is n+1). -/
def countOcc (needle hay : Str) : Nat :=
  if needle = [] then hay.length + 1 else countOccAux needle hay.length hay

/-- The result dict of `RAGAgent.run`; `Option` fields model keys present
only on one of the two return paths. -/
structure RagRunResult where
  agent : Str
  answer : Str
  reason : Option Str
  context_used : Nat
  raw_context : Option Str

namespace RAGAgent

/-- The user message built in `RAGAgent.run` (the constant system prompt is
carried by the generation capability call itself). -/
def ragUserPrompt (context query : Str) : Str :=
  "Context:\n".toList ++ context ++ "\n\nQuestion:\n".toList ++ query

/-- `RAGAgent.run` from `rag_agent.py`. `ragToolOut query` is the string the
`use_tool("rag", query=query, k=5)` call returns (`BaseAgent.use_tool`
catches every exception and returns an error string, so it is total);
`askLLM` is the generation capability (its errors are caught by
`BaseAgent.ask_llm` and rendered as a labeled string). -/
def run (ragToolOut : Str → Str) (askLLM : Str → Except Str Str)
    (query : Str) : RagRunResult :=
  let retrieved_text := ragToolOut query
  if substrIn "error".toList (lower retrieved_text) then
    { agent := "rag".toList
      answer := "RAG Tool failed to retrieve relevant information.".toList
      reason := some retrieved_text
      context_used := 0
      raw_context := none }
  else
    let context := retrieved_text
    let llm_response :=
      match askLLM (ragUserPrompt context query) with
      | Except.ok t => t
      | Except.error e => "[LLM Error in RAGAgent] ".toList ++ e
    { agent := "rag".toList
      answer := llm_response
      reason := none
      context_used := countOcc "Document".toList context
      raw_context := some (context.take 500 ++ "...".toList) }

end RAGAgent

section RagTheorems

/-- C10 (confirmed): whenever the retrieval tool's output contains the
substring "error" in any letter case — anywhere, including inside the body
of a successfully retrieved document — `RAGAgent.run` discards the context
and returns the fixed failure answer with `context_used = 0`. -/
theorem rag_agent_error_substring_fails (ragToolOut : Str → Str)
    (askLLM : Str → Except Str Str) (query : Str)
    (h : "error".toList <:+: lower (ragToolOut query)) :
    (RAGAgent.run ragToolOut askLLM query).answer
        = "RAG Tool failed to retrieve relevant information.".toList ∧
      (RAGAgent.run ragToolOut askLLM query).context_used = 0 := by
  have hb : substrIn "error".toList (lower (ragToolOut query)) = true :=
    (substrIn_iff _ _).mpr h
  simp only [RAGAgent.run, hb]
  exact ⟨rfl, rfl⟩

/-- A successful retrieval whose document body happens to contain "Error". -/
def docWithError : RetrievedDoc :=
  { content := "An Error occurred in 1999".toList
    source := "report.pdf".toList
    page := "2".toList
    score := mkRat 9 10 }

/-- The retrieval tool output for that successful retrieval. -/
def ragToolOutError : Str → Str :=
  fun q => RAGTool.retrieve (Except.ok [docWithError]) q

/-- Witness for C10 at a concrete run: one successfully formatted document
whose body contains "Error" triggers the failure answer. -/
theorem rag_agent_error_substring_fails_witness :
    (RAGAgent.run ragToolOutError (fun _ => Except.ok "ans".toList)
          "what happened".toList).answer
        = "RAG Tool failed to retrieve relevant information.".toList ∧
      (RAGAgent.run ragToolOutError (fun _ => Except.ok "ans".toList)
          "what happened".toList).context_used = 0 :=
  rag_agent_error_substring_fails ragToolOutError
    (fun _ => Except.ok "ans".toList) "what happened".toList
    ((substrIn_iff _ _).mp (by rfl))

end RagTheorems

/-- The LangGraph `AppState` TypedDict of `workflow.py`; `Option` models keys
not yet written (the graph is invoked with only `query` set; `evaluation` is
declared but never written by any node — `evaluator_node` returns only
`response`). -/
structure AppState where
  query : Str
  rewritten_query : Option Str
  route : Option Str
  selected_agent : Option Str
  agent_response : Option Str
  response : Option Str
  evaluation : Option EvalResult

/-- The external capabilities consumed by the graph nodes of `workflow.py`:
generation calls (`Except.error` = the call raised), the two direct tools,
the two opaque agent responders (WeatherAgent and UserQueryAgent's LLM catch
both errors internally, so they are total), the RAG agent's tool and LLM,
and the evaluator's scoring/improvement capabilities and tool dict. -/
structure WorkflowCaps where
  rewriteLLM : Str → Except Str Str
  calcTool : Str → Str
  webTool : Str → Str
  weatherAgent : Str → Str
  ragToolOut : Str → Str
  ragAskLLM : Str → Except Str Str
  generalLLM : Str → Except Str Str
  scoreLLM : ScoreLLMOut
  improveLLM : Str → Except Str Str
  evalTools : EvalTools

/-- `UserQueryAgent.__call__`/`_get_llm_response` from `user_query_agent.py`:
canned reply on empty query, otherwise the LLM answer, with any exception
rendered as a labeled string. -/
def userQueryAgentCall (llm : Str → Except Str Str) (query : Str) : Str :=
  if query = [] then
    "I didn't receive a query. Please ask me something!".toList
  else
    match llm query with
    | Except.ok t => t
    | Except.error e =>
        "I encountered an error processing your request: ".toList ++ e

namespace Workflow

/-- The context string built in `rewrite_query_node` from the last three
history entries (`history[-3:]`). -/
def contextOf (history : List Interaction) : Str :=
  (history.drop (history.length - 3)).foldl
    (fun acc h =>
      acc ++ "User: ".toList ++ h.user ++ "\n".toList
        ++ "Assistant: ".toList ++ h.assistant ++ "\n".toList) []

/-- The rewrite prompt f-string of `rewrite_query_node`. -/
def rewritePrompt (context query : Str) : Str :=
  "\nYou are a query rewriter.\n\nConversation history:\n".toList
    ++ context
    ++ "\n\nUser follow-up question:\n".toList
    ++ query
    ++ "\n\nRewrite it into a fully self-contained question.\nDO NOT answer. Only rewrite.\n".toList

/-- The fresh state `app.invoke` starts from (only `query` supplied). -/
def initState (query : Str) : AppState :=
  { query := query, rewritten_query := none, route := none,
    selected_agent := none, agent_response := none, response := none,
    evaluation := none }

/-- `rewrite_query_node` from `workflow.py`: identity when the (module-global)
short-term memory is empty, otherwise one `llm.invoke` whose failure
propagates (there is no try/except in this node). `mem` is the buffer of the
module-global `short_term_memory`. -/
def rewrite_query_node (llm : Str → Except Str Str) (mem : List Interaction)
    (s : AppState) : Except Str AppState :=
  if mem = [] then
    Except.ok { s with rewritten_query := some s.query }
  else
    match llm (rewritePrompt (contextOf mem) s.query) with
    | Except.error e => Except.error e
    | Except.ok content =>
        Except.ok { s with rewritten_query := some (pyStrip content) }

/-- `router_node`: route on `state.get("rewritten_query", state["query"])`
via the module's `RoutingPolicy(debug=True)` (constructed with no LLM
client). -/
def router_node (s : AppState) : AppState :=
  let query := s.rewritten_query.getD s.query
  let r := RoutingPolicy.route none query
  { s with route := some r, selected_agent := some r }

/-- `calculator_node` (reads `state["rewritten_query"]`, which every path
sets before reaching this node). -/
def calculator_node (tool : Str → Str) (s : AppState) : AppState :=
  let result := tool (s.rewritten_query.getD [])
  { s with response := some ("Calculation: ".toList ++ result) }

/-- `web_search_node`. -/
def web_search_node (web : Str → Str) (s : AppState) : AppState :=
  let result := web (s.rewritten_query.getD [])
  { s with response := some result }

/-- `weather_node` (the WeatherAgent pipeline is opaque here; it converts all
stage errors to labeled strings, so it is a total `Str → Str`). -/
def weather_node (weather : Str → Str) (s : AppState) : AppState :=
  let result := weather (s.rewritten_query.getD [])
  { s with agent_response := some result }

/-- `rag_node`: `rag_agent.run(state["rewritten_query"]).get("answer")`. -/
def rag_node (caps : WorkflowCaps) (s : AppState) : AppState :=
  let result := RAGAgent.run caps.ragToolOut caps.ragAskLLM (s.rewritten_query.getD [])
  { s with agent_response := some result.answer }

/-- `general_node`: the UserQueryAgent on the rewritten query. -/
def general_node (caps : WorkflowCaps) (s : AppState) : AppState :=
  let result := userQueryAgentCall caps.generalLLM (s.rewritten_query.getD [])
  { s with agent_response := some result }

/-- `evaluator_node` from `workflow.py`: run the EvaluatorAgent (whose one
uncaught raise propagates), pick
`result.get("evaluation", {}).get("improved_answer", state.get("agent_response"))`
as the final answer, append `{"user": state["query"], "assistant": final}` to
the module-global short-term memory, and return `{"response": final}`.
(On every graph path `agent_response` is set before this node, so the
`getD []` default for the stored assistant text is never taken.) -/
def evaluator_node (caps : WorkflowCaps) (mem : List Interaction)
    (s : AppState) : Except Str (List Interaction × AppState) :=
  match EvaluatorAgent.call caps.scoreLLM caps.improveLLM caps.evalTools
      (mkRat 3 4)
      { query := s.query, plan := none, selected_agent := s.selected_agent,
        agent_response := s.agent_response.getD [] } with
  | Except.error e => Except.error e
  | Except.ok r =>
      let final : Option Str := r.improved_answer.orElse (fun _ => s.agent_response)
      let mem' := ShortTermMemory.add mem
        { user := s.query, assistant := final.getD [] }
      Except.ok (mem', { s with response := final })

/-- `app.invoke` over the compiled graph of `workflow.py`: rewrite → router →
one conditional branch; `calculator`/`web_search` go straight to END, the
three agent routes pass through `evaluator` (the only node that touches the
short-term memory). Returns the updated module-global memory buffer and the
final state; `Except.error` models an exception escaping the graph. -/
def appInvoke (caps : WorkflowCaps) (mem : List Interaction) (query : Str) :
    Except Str (List Interaction × AppState) :=
  match rewrite_query_node caps.rewriteLLM mem (initState query) with
  | Except.error e => Except.error e
  | Except.ok s1 =>
      let s2 := router_node s1
      if s2.route = some "calculator".toList then
        Except.ok (mem, calculator_node caps.calcTool s2)
      else if s2.route = some "web_search".toList then
        Except.ok (mem, web_search_node caps.webTool s2)
      else if s2.route = some "weather".toList then
        evaluator_node caps mem (weather_node caps.weatherAgent s2)
      else if s2.route = some "rag".toList then
        evaluator_node caps mem (rag_node caps s2)
      else if s2.route = some "general".toList then
        evaluator_node caps mem (general_node caps s2)
      else
        Except.error "KeyError: unknown route".toList

end Workflow

/-- The mutable process state of `backend/main.py` plus the workflow module:
`sessions` is the `SESSION_MEMORY` dict (session id → that session's
`ShortTermMemory` buffer), `globalMem` the buffer of the module-global
`short_term_memory` instantiated in `workflow.py`. -/
structure ServerState where
  sessions : List (Str × List Interaction)
  globalMem : List Interaction

/-- The `/chat` response body: `{"success": true, query, answer, session_id}`
or `{"success": false, "error": ...}`. -/
inductive ChatResponse where
  | ok (query answer session_id : Str)
  | err (error : Str)
deriving DecidableEq

namespace Backend

/-- `ask_question` (the POST `/chat` handler of `backend/main.py`): lazily
create this session's `ShortTermMemory` in `SESSION_MEMORY`, run the graph,
and catch any exception into `{"success": false, "error": ...}`.

The handler passes the per-session memory in the invoke payload
(`"memory": session_memory`), but no key `memory` exists in `AppState` and no
graph node reads it: the graph nodes use the module-global
`short_term_memory`, which is what `appInvoke` threads through. -/
def ask_question (caps : WorkflowCaps) (st : ServerState)
    (session_id query : Str) : ServerState × ChatResponse :=
  let sessions :=
    if (st.sessions.lookup session_id).isSome then st.sessions
    else st.sessions ++ [(session_id, [])]
  match Workflow.appInvoke caps st.globalMem query with
  | Except.error e =>
      ({ st with sessions := sessions }, ChatResponse.err e)
  | Except.ok (mem', s) =>
      ({ sessions := sessions, globalMem := mem' },
       ChatResponse.ok query (s.response.getD "No response generated".toList)
         session_id)

end Backend

section WorkflowTheorems

/-- `rewrite_query_node` never changes the original `query` field. -/
theorem rewrite_query_node_preserves_query (llm : Str → Except Str Str)
    (mem : List Interaction) (s s' : AppState)
    (h : Workflow.rewrite_query_node llm mem s = Except.ok s') :
    s'.query = s.query := by
  unfold Workflow.rewrite_query_node at h
  split at h
  · cases h
    rfl
  · split at h
    · cases h
    · cases h
      rfl

/-- C2 (amended): the session history is mutated only by the evaluator node,
which appends exactly one entry per agent-routed turn consisting of the
ORIGINAL query (`state["query"]`, not the rewritten one) and the final
answer, before the response is produced; `calculator` and `web_search` turns
return their response without touching the history. -/
theorem history_append_shape (caps : WorkflowCaps) (mem : List Interaction)
    (query : Str) (mem' : List Interaction) (s : AppState)
    (h : Workflow.appInvoke caps mem query = Except.ok (mem', s)) :
    ((s.route = some "calculator".toList ∨ s.route = some "web_search".toList)
        ∧ mem' = mem) ∨
      mem' = ShortTermMemory.add mem
          { user := query, assistant := s.response.getD [] } := by
  simp only [Workflow.appInvoke] at h
  split at h
  · cases h
  · rename_i s1 heq
    have hq : s1.query = query := rewrite_query_node_preserves_query _ _ _ _ heq
    split at h
    · rename_i hroute
      cases h
      exact Or.inl ⟨Or.inl hroute, rfl⟩
    · split at h
      · rename_i hroute
        cases h
        exact Or.inl ⟨Or.inr hroute, rfl⟩
      · split at h
        · simp only [Workflow.evaluator_node] at h
          split at h
          · cases h
          · cases h
            refine Or.inr ?_
            simp only [Workflow.weather_node, Workflow.router_node]
            rw [hq]
        · split at h
          · simp only [Workflow.evaluator_node] at h
            split at h
            · cases h
            · cases h
              refine Or.inr ?_
              simp only [Workflow.rag_node, Workflow.router_node]
              rw [hq]
          · split at h
            · simp only [Workflow.evaluator_node] at h
              split at h
              · cases h
              · cases h
                refine Or.inr ?_
                simp only [Workflow.general_node, Workflow.router_node]
                rw [hq]
            · cases h

end WorkflowTheorems

section ConcreteRuns

/-- Concrete capabilities: the rewrite LLM answers with a fixed rewritten
query, the general agent answers "final-ans", scoring output is non-JSON
(neutral default), no augmentation tools. -/
def capsC2 : WorkflowCaps :=
  { rewriteLLM := fun _ => Except.ok "REWRITTEN QUERY".toList
    calcTool := fun _ => "4".toList
    webTool := fun q => q
    weatherAgent := fun _ => "weather".toList
    ragToolOut := fun _ => "No relevant documents found".toList
    ragAskLLM := fun _ => Except.ok "rag-ans".toList
    generalLLM := fun _ => Except.ok "final-ans".toList
    scoreLLM := ScoreLLMOut.notJson
    improveLLM := fun _ => Except.error "unused".toList
    evalTools := evalToolsNone }

/-- A one-entry pre-existing global history. -/
def memC2 : List Interaction :=
  [{ user := "a".toList, assistant := "b".toList }]

/-- C2 counterexample: (i) on an agent-routed turn the appended history entry
carries the ORIGINAL query "orig question", not the rewritten query
"REWRITTEN QUERY" the turn actually used; (ii) a calculator turn returns its
response with no history append at all. -/
theorem history_append_original_not_rewritten :
    (∃ s, Workflow.appInvoke capsC2 memC2 "orig question".toList
          = Except.ok (memC2 ++ [Interaction.mk "orig question".toList
              "final-ans".toList], s)
        ∧ s.rewritten_query = some "REWRITTEN QUERY".toList
        ∧ "orig question".toList ≠ "REWRITTEN QUERY".toList) ∧
      (∃ s, Workflow.appInvoke capsC2 [] "2+2".toList = Except.ok ([], s)
        ∧ s.response = some "Calculation: 4".toList) := by
  refine ⟨⟨_, rfl, rfl, by decide⟩, ⟨_, rfl, rfl⟩⟩

/-- The final state of the calculator run used by the C2 witness. -/
def sC2calc : AppState :=
  { query := "2+2".toList
    rewritten_query := some "2+2".toList
    route := some "calculator".toList
    selected_agent := some "calculator".toList
    agent_response := none
    response := some "Calculation: 4".toList
    evaluation := none }

/-- Witness for C2's amended theorem at the concrete calculator run. -/
theorem history_append_shape_witness :
    ((sC2calc.route = some "calculator".toList
          ∨ sC2calc.route = some "web_search".toList)
        ∧ ([] : List Interaction) = []) ∨
      ([] : List Interaction) = ShortTermMemory.add []
          { user := "2+2".toList, assistant := sC2calc.response.getD [] } :=
  history_append_shape capsC2 [] "2+2".toList [] sC2calc (by rfl)

/-- Capabilities whose rewrite LLM raises. -/
def capsC3 : WorkflowCaps :=
  { capsC2 with rewriteLLM := fun _ => Except.error "boom".toList }

/-- C3 counterexample: with a non-empty history and a failing rewrite LLM,
the whole request fails — `rewrite_query_node` has no try/except, so the
exception escapes the graph and the HTTP boundary answers
`{"success": false, "error": ...}` instead of completing with an identity
rewrite. -/
theorem rewrite_error_fails_request :
    Workflow.appInvoke capsC3 memC2 "follow up".toList
        = Except.error "boom".toList ∧
      (Backend.ask_question capsC3 { sessions := [], globalMem := memC2 }
          "s".toList "follow up".toList).2 = ChatResponse.err "boom".toList :=
  ⟨rfl, rfl⟩

/-- C3 (amended): the identity rewrite happens only on an EMPTY history (no
model call); on a non-empty history a failing generation call propagates out
of the graph and the request fails (converted to `success: false` only at
the HTTP boundary). -/
theorem rewrite_identity_only_on_empty_history (caps : WorkflowCaps)
    (mem : List Interaction) (query e : Str) :
    (mem = [] →
      Workflow.rewrite_query_node caps.rewriteLLM mem (Workflow.initState query)
        = Except.ok { Workflow.initState query with
            rewritten_query := some query }) ∧
      (mem ≠ [] →
        caps.rewriteLLM
            (Workflow.rewritePrompt (Workflow.contextOf mem) query)
          = Except.error e →
        Workflow.appInvoke caps mem query = Except.error e) := by
  constructor
  · intro hm
    subst hm
    rfl
  · intro hm herr
    unfold Workflow.appInvoke Workflow.rewrite_query_node
    rw [if_neg hm]
    simp only [Workflow.initState]
    rw [herr]

/-- Witness for C3's amended theorem: identity on empty history, propagation
on the concrete failing run. -/
theorem rewrite_identity_only_on_empty_history_witness :
    Workflow.rewrite_query_node capsC3.rewriteLLM [] (Workflow.initState "q".toList)
        = Except.ok { Workflow.initState "q".toList with
            rewritten_query := some "q".toList } ∧
      Workflow.appInvoke capsC3 memC2 "follow up".toList
        = Except.error "boom".toList :=
  ⟨(rewrite_identity_only_on_empty_history capsC3 [] "q".toList "boom".toList).1 rfl,
   (rewrite_identity_only_on_empty_history capsC3 memC2 "follow up".toList
       "boom".toList).2 (by decide) rfl⟩

/-- Echoing capabilities for the session-isolation run: the rewrite LLM and
the calculator echo their input, the general agent answers "ansA". -/
def capsEcho : WorkflowCaps :=
  { rewriteLLM := fun prompt => Except.ok prompt
    calcTool := fun e => e
    webTool := fun q => q
    weatherAgent := fun _ => "weather".toList
    ragToolOut := fun _ => "No relevant documents found".toList
    ragAskLLM := fun _ => Except.ok "rag-ans".toList
    generalLLM := fun _ => Except.ok "ansA".toList
    scoreLLM := ScoreLLMOut.notJson
    improveLLM := fun _ => Except.error "unused".toList
    evalTools := evalToolsNone }

/-- Fresh server state. -/
def st0 : ServerState := { sessions := [], globalMem := [] }

/-- C1 violation, evaluated on the code at the failing input: after session
"A" completes the turn "hi" → "ansA", (i) the entry lands in the workflow
module's GLOBAL history, (ii) session "A"'s own `SESSION_MEMORY` buffer stays
empty (it is passed to `app.invoke` but never read or written by any node),
and (iii) the next request under the DIFFERENT session id "B" has session
A's turn fed into its query rewrite — the rewritten query (echoed through to
the answer here) contains "Assistant: ansA". -/
theorem session_history_shared_across_sessions :
    (Backend.ask_question capsEcho st0 "A".toList "hi".toList).1.globalMem
        = [{ user := "hi".toList, assistant := "ansA".toList }] ∧
      ((Backend.ask_question capsEcho st0 "A".toList "hi".toList).1.sessions.lookup
          "A".toList) = some [] ∧
      (∃ ans,
        (Backend.ask_question capsEcho
            (Backend.ask_question capsEcho st0 "A".toList "hi".toList).1
            "B".toList "yo".toList).2
          = ChatResponse.ok "yo".toList ans "B".toList ∧
        "Assistant: ansA".toList <:+: ans) := by
  refine ⟨rfl, rfl, ⟨_, rfl, (substrIn_iff _ _).mp (by rfl)⟩⟩

end ConcreteRuns
